import Mathlib

/-!
# SurfSense backend: shallow embedding and verification

This file embeds the parts of the SurfSense backend that the specification
talks about:

* `app/routes/search_source_connectors_routes.py` — connector CRUD, the
  indexing trigger endpoint, and the checkpoint (`last_indexed_at`) update
  logic of the background indexing runs;
* `app/routes/documents_routes.py` — document CRUD endpoints;
* `app/db.py` — the declarative data model (connector types, document types,
  cascade relationships, embedding columns).

Python datetimes are modelled at day granularity plus a within-day tick
(`Timestamp`); database tables are lists of records; a route handler is a
function from its inputs (and the records it reads) to the dispatched
background tasks, the possibly-updated records, and either a response value or
an HTTP error status.
-/

namespace SurfSense

/-- A Python `datetime`: `day` is the calendar day ordinal (what `.date()`
returns, and what `strftime("%Y-%m-%d")` renders), `tick` orders instants
within one day. -/
structure Timestamp where
  day : Nat
  tick : Nat
deriving DecidableEq, Repr

/-- `SearchSourceConnectorType` enum of `app/db.py` (lines 45-50). -/
inductive SearchSourceConnectorType
  | SERPER_API
  | TAVILY_API
  | SLACK_CONNECTOR
  | NOTION_CONNECTOR
  | GITHUB_CONNECTOR
deriving DecidableEq, Repr

/-- `DocumentType` enum of `app/db.py` (lines 36-43). -/
inductive DocumentType
  | EXTENSION
  | CRAWLED_URL
  | FILE
  | SLACK_CONNECTOR
  | NOTION_CONNECTOR
  | YOUTUBE_VIDEO
  | GITHUB_CONNECTOR
deriving DecidableEq, Repr

/-- A row of the `search_source_connectors` table (`app/db.py` lines 130-140).
The opaque JSON `config` blob is kept as a string. -/
structure Connector where
  id : Nat
  user_id : Nat
  name : String
  connector_type : SearchSourceConnectorType
  is_indexable : Bool
  last_indexed_at : Option Timestamp
  config : String
deriving DecidableEq, Repr

/-- `select(SearchSourceConnector).filter(SearchSourceConnector.id == connector_id)`
followed by `.scalars().first()`. -/
def findConnector (db : List Connector) (cid : Nat) : Option Connector :=
  db.find? (fun c => decide (c.id = cid))

/-- The single field assignment `connector.last_indexed_at = datetime.now()`
performed by `update_connector_last_indexed`; `now` is the clock value at the
moment the assignment executes. -/
def setCheckpoint (now : Timestamp) (c : Connector) : Connector :=
  { c with last_indexed_at := some now }

/-- `update_connector_last_indexed` (`search_source_connectors_routes.py`
lines 332-356): look the connector up by id; if present, set its
`last_indexed_at` to `datetime.now()` — the clock value `now` at the moment
this update runs — and commit; if absent, do nothing. -/
def update_connector_last_indexed (now : Timestamp) :
    List Connector → Nat → List Connector
  | [], _ => []
  | c :: rest, cid =>
    if c.id = cid then setCheckpoint now c :: rest
    else c :: update_connector_last_indexed now rest cid

/-- `isPrefixCh n h` decides whether the character list `n` is a prefix of `h`. -/
def isPrefixCh : List Char → List Char → Bool
  | [], _ => true
  | _ :: _, [] => false
  | a :: as, b :: bs => a == b && isPrefixCh as bs

/-- `containsSub n h` decides whether `n` occurs as a contiguous sublist of
`h`; this is Python's substring operator `in` on the underlying characters. -/
def containsSub (n : List Char) : List Char → Bool
  | [] => isPrefixCh n []
  | b :: bs => isPrefixCh n (b :: bs) || containsSub n bs

/-- Python's `needle in hay` on strings: substring containment. -/
def containsSubstring (needle hay : String) : Bool :=
  containsSub needle.data hay.data

/-- The outcome that `index_slack_messages` / `index_notion_pages` (imported
task functions, opaque to the route module) deliver to the background runner:
either a pair `(documents_indexed, error_or_warning)` or a raised exception. -/
inductive IndexOutcome
  | result (documentsIndexed : Nat) (errorOrWarning : Option String)
  | raised
deriving DecidableEq, Repr

/-- The guard of `run_slack_indexing` / `run_notion_indexing` (lines 381, 412):
`documents_indexed > 0 and (error_or_warning is None or "Indexed" in
error_or_warning)`. -/
def shouldAdvanceCheckpoint : IndexOutcome → Bool
  | .raised => false
  | .result n msg =>
    decide (n > 0) &&
      (match msg with
       | none => true
       | some m => containsSubstring "Indexed" m)

/-- `run_slack_indexing` (`search_source_connectors_routes.py` lines 358-387):
run `index_slack_messages` (its outcome is the parameter `outcome`; an
exception it raises is caught by the surrounding `try`), and update the
connector's `last_indexed_at` only when the guard holds. `now` is the clock
value at the moment `update_connector_last_indexed` executes, i.e. after the
indexing work has finished — the source captures no run start time. -/
def run_slack_indexing (now : Timestamp) (db : List Connector) (cid : Nat)
    (outcome : IndexOutcome) : List Connector :=
  if shouldAdvanceCheckpoint outcome then update_connector_last_indexed now db cid
  else db

/-- `run_notion_indexing` (`search_source_connectors_routes.py` lines 389-418):
identical checkpoint logic to `run_slack_indexing`, calling
`index_notion_pages` instead. -/
def run_notion_indexing (now : Timestamp) (db : List Connector) (cid : Nat)
    (outcome : IndexOutcome) : List Connector :=
  if shouldAdvanceCheckpoint outcome then update_connector_last_indexed now db cid
  else db

/-- The Python exception raised by the start-date computation's today branch:
`datetime.timedelta` does not exist, because `datetime` is the class bound by
`from datetime import datetime`, which has no `timedelta` attribute. -/
inductive PyError
  | attributeError
deriving DecidableEq, Repr

/-- The `start_date` value of `index_connector_content`: either the literal
string `"365 days ago"` or a `strftime("%Y-%m-%d")`-rendered calendar day. -/
inductive StartDate
  | daysAgo365
  | onDay (d : Nat)
deriving DecidableEq, Repr

/-- The `start_date` computation of `index_connector_content`
(`search_source_connectors_routes.py` lines 244-253 and 281-290, identical):
* `last_indexed_at` null → the string `"365 days ago"`;
* `last_indexed_at.date() == datetime.now().date()` → the source evaluates
  `today - datetime.timedelta(days=1)`, which raises `AttributeError` since
  `datetime` here is the class imported by `from datetime import datetime`;
* otherwise → `last_indexed_at.strftime("%Y-%m-%d")`. -/
def computeStartDate (lastIndexedAt : Option Timestamp) (today : Nat) :
    Except PyError StartDate :=
  match lastIndexedAt with
  | none => .ok .daysAgo365
  | some t =>
    if t.day = today then .error .attributeError
    else .ok (.onDay t.day)

/-- A row of the `searchspaces` table (`app/db.py` lines 117-128). -/
structure SSpace where
  id : Nat
  user_id : Nat
  name : String
deriving DecidableEq, Repr

/-- Modelled from the spec: the `check_ownership` helper (`app/utils`, not
under `src/`) returns the entity with the given id only when it exists and
belongs to the calling user, and raises HTTP 404 otherwise (ownership checks
are specified as thin plumbing around the core). -/
def findOwnedConnector (db : List Connector) (cid uid : Nat) : Option Connector :=
  db.find? (fun c => decide (c.id = cid ∧ c.user_id = uid))

/-- Modelled from the spec: `check_ownership` for `SearchSpace` rows, as
`findOwnedConnector`. -/
def findOwnedSpace (spaces : List SSpace) (sid uid : Nat) : Option SSpace :=
  spaces.find? (fun s => decide (s.id = sid ∧ s.user_id = uid))

/-- A task handed to FastAPI's `background_tasks.add_task` by
`index_connector_content`. -/
inductive BackgroundTask
  | slackIndexing (connector_id : Nat) (search_space_id : Nat)
  | notionIndexing (connector_id : Nat) (search_space_id : Nat)
deriving DecidableEq, Repr

/-- The success/no-background-tasks dictionaries returned by
`index_connector_content` (lines 264-271, 274-278, 301-308, 311-315):
`started` carries `connector_type`, `search_space` name, `indexing_from` and
`indexing_to` (today's date); `noBackgroundTasks` is the `success: False`
dictionary returned when `background_tasks` is unavailable. -/
inductive TriggerResponse
  | started (ct : SearchSourceConnectorType) (spaceName : String)
      (indexingFrom : StartDate) (indexingTo : Nat)
  | noBackgroundTasks (ct : SearchSourceConnectorType)
deriving DecidableEq, Repr

/-- `index_connector_content` (`search_source_connectors_routes.py` lines
209-329). Inputs: the connector and search-space tables, the caller, the path
and query parameters, `today` (the day of every `datetime.now()` call during
this request) and whether `background_tasks` is available. Output: the
(unchanged) connector table — the trigger itself never writes to it — the
dispatched background tasks, and the response or HTTP error status. The
`AttributeError` raised by the start-date computation when `last_indexed_at`
falls on the current day is caught by the generic `except Exception` handler
and rewrapped as HTTP 500 (lines 324-329). Unsupported connector types raise
HTTP 400 (lines 316-320). -/
def index_connector_content (db : List Connector) (spaces : List SSpace)
    (uid cid ssid : Nat) (today : Nat) (hasBackgroundTasks : Bool) :
    List Connector × List BackgroundTask × Except Nat TriggerResponse :=
  match findOwnedConnector db cid uid with
  | none => (db, [], .error 404)
  | some conn =>
    match findOwnedSpace spaces ssid uid with
    | none => (db, [], .error 404)
    | some sp =>
      match conn.connector_type with
      | .SLACK_CONNECTOR =>
        match computeStartDate conn.last_indexed_at today with
        | .error _ => (db, [], .error 500)
        | .ok sd =>
          if hasBackgroundTasks then
            (db, [.slackIndexing cid ssid],
              .ok (.started .SLACK_CONNECTOR sp.name sd today))
          else (db, [], .ok (.noBackgroundTasks .SLACK_CONNECTOR))
      | .NOTION_CONNECTOR =>
        match computeStartDate conn.last_indexed_at today with
        | .error _ => (db, [], .error 500)
        | .ok sd =>
          if hasBackgroundTasks then
            (db, [.notionIndexing cid ssid],
              .ok (.started .NOTION_CONNECTOR sp.name sd today))
          else (db, [], .ok (.noBackgroundTasks .NOTION_CONNECTOR))
      | _ => (db, [], .error 400)

/-- The `SearchSourceConnectorCreate` request body: the connector's own
fields, without id, owner or checkpoint. -/
structure SearchSourceConnectorCreate where
  name : String
  connector_type : SearchSourceConnectorType
  is_indexable : Bool
  config : String
deriving DecidableEq, Repr

/-- `create_search_source_connector` (`search_source_connectors_routes.py`
lines 31-85): if the user already has a connector of the requested type,
raise HTTP 409 before any insert (the session is rolled back, so the table is
returned unchanged); otherwise insert the new row — `freshId` is the
database-assigned primary key — with a null `last_indexed_at`. -/
def create_search_source_connector (db : List Connector) (uid : Nat)
    (conn : SearchSourceConnectorCreate) (freshId : Nat) :
    List Connector × Except Nat Connector :=
  match db.find? (fun c =>
      decide (c.user_id = uid ∧ c.connector_type = conn.connector_type)) with
  | some _ => (db, .error 409)
  | none =>
    let newConn : Connector :=
      { id := freshId
        user_id := uid
        name := conn.name
        connector_type := conn.connector_type
        is_indexable := conn.is_indexable
        last_indexed_at := none
        config := conn.config }
    (db ++ [newConn], .ok newConn)

/-- The in-place `setattr` loop of `update_search_source_connector`: replace
the first row owned by `uid` with id `cid` by `c'`. -/
def replaceOwnedConnector : List Connector → Nat → Nat → Connector → List Connector
  | [], _, _, _ => []
  | c :: rest, cid, uid, c' =>
    if c.id = cid ∧ c.user_id = uid then c' :: rest
    else c :: replaceOwnedConnector rest cid uid c'

/-- The row produced by applying every field of the update body to `c`
(`connector_update.model_dump()` holds all four fields). -/
def applyConnectorUpdate (c : Connector) (upd : SearchSourceConnectorCreate) :
    Connector :=
  { c with
    name := upd.name
    connector_type := upd.connector_type
    is_indexable := upd.is_indexable
    config := upd.config }

/-- `update_search_source_connector` (`search_source_connectors_routes.py`
lines 126-186): fetch the caller-owned connector (HTTP 404 otherwise); when
the requested type differs from the current one and another connector of the
same user already has that type, raise HTTP 409 with the session rolled back
(table unchanged); otherwise apply the update fields and commit. -/
def update_search_source_connector (db : List Connector) (uid cid : Nat)
    (upd : SearchSourceConnectorCreate) :
    List Connector × Except Nat Connector :=
  match findOwnedConnector db cid uid with
  | none => (db, .error 404)
  | some c =>
    if upd.connector_type ≠ c.connector_type ∧
        (db.find? (fun c2 => decide (c2.user_id = uid ∧
          c2.connector_type = upd.connector_type ∧ c2.id ≠ cid))).isSome then
      (db, .error 409)
    else
      let c' := applyConnectorUpdate c upd
      (replaceOwnedConnector db cid uid c', .ok c')

/-- The per-user per-type uniqueness invariant of the connector table: no two
rows share both owner and connector type. -/
def uniqueUserType (db : List Connector) : Prop :=
  db.Pairwise (fun a b => ¬(a.user_id = b.user_id ∧ a.connector_type = b.connector_type))

/-- A row of the `documents` table (`app/db.py` lines 83-95). The `embedding`
column is a pgvector `Vector(config.embedding_model_instance.dimension)` and,
like every column without `nullable=False`, is nullable; vector entries are
irrelevant to the properties here and are kept as integers. -/
structure Document where
  id : Nat
  search_space_id : Nat
  title : String
  document_type : DocumentType
  content : String
  embedding : Option (List Int)
deriving DecidableEq, Repr

/-- A row of the `chunks` table (`app/db.py` lines 97-104); its `embedding`
column is declared with the same process-wide dimension as `Document.embedding`. -/
structure Chunk where
  id : Nat
  document_id : Nat
  content : String
  embedding : Option (List Int)
deriving DecidableEq, Repr

/-- A row of the `podcasts` table (`app/db.py` lines 106-115). -/
structure Podcast where
  id : Nat
  search_space_id : Nat
  title : String
deriving DecidableEq, Repr

/-- A row of the `chats` table (`app/db.py` lines 72-81). -/
structure Chat where
  id : Nat
  search_space_id : Nat
  title : String
deriving DecidableEq, Repr

/-- The tables the declarative model of `app/db.py` relates by cascading
foreign keys. -/
structure ContentState where
  spaces : List SSpace
  documents : List Document
  chunks : List Chunk
  podcasts : List Podcast
  chats : List Chat
deriving DecidableEq, Repr

/-- Modelled from the spec: deletion of a SearchSpace (no search-space delete
route is under `src/`); the effect on the other tables follows the
relationships declared in `app/db.py`: `SearchSpace.documents/podcasts/chats`
carry `cascade="all, delete-orphan"` with `ondelete='CASCADE'` foreign keys
(lines 80, 93, 114, 126-128), so the space's Documents, Podcasts and Chats are
deleted with it, and `Document.chunks` carries the same cascade (lines 95,
103), so each deleted Document's Chunks are deleted in turn. -/
def deleteSearchSpace (st : ContentState) (sid : Nat) : ContentState :=
  let deadDocs := st.documents.filter (fun d => decide (d.search_space_id = sid))
  { spaces := st.spaces.filter (fun s => decide (s.id ≠ sid))
    documents := st.documents.filter (fun d => decide (d.search_space_id ≠ sid))
    chunks := st.chunks.filter
      (fun c => !(deadDocs.any (fun d => decide (d.id = c.document_id))))
    podcasts := st.podcasts.filter (fun p => decide (p.search_space_id ≠ sid))
    chats := st.chats.filter (fun ch => decide (ch.search_space_id ≠ sid)) }

/-- The process-wide embedding configuration
(`config.embedding_model_instance.dimension` in `app/db.py` lines 91 and 101):
a single dimension fixed at startup and shared by the `documents` and `chunks`
embedding columns. -/
structure EmbeddingConfig where
  dimension : Nat
deriving DecidableEq, Repr

/-- Whether a nullable pgvector `Vector(cfg.dimension)` column accepts the
value: NULL always, a vector only at the declared length. -/
def vectorColumnAccepts (cfg : EmbeddingConfig) : Option (List Int) → Bool
  | none => true
  | some v => decide (v.length = cfg.dimension)

/-- Modelled from the spec: the atomic `createDocumentWithChunks` ingestion
write (the task functions that perform it are not under `src/`); the Document
row and all its Chunk rows are inserted as one unit, and the pgvector
`Vector(config.embedding_model_instance.dimension)` columns declared in
`app/db.py` (lines 91, 101) reject any embedding whose length differs from the
configured dimension, failing the whole write. -/
def createDocumentWithChunks (cfg : EmbeddingConfig) (st : ContentState)
    (d : Document) (cs : List Chunk) : Option ContentState :=
  if vectorColumnAccepts cfg d.embedding &&
      cs.all (fun c => vectorColumnAccepts cfg c.embedding) then
    some { st with
           documents := st.documents ++ [d]
           chunks := st.chunks ++ cs }
  else none

/-- The empty database. -/
def emptyContentState : ContentState :=
  { spaces := [], documents := [], chunks := [], podcasts := [], chats := [] }

/-- Content states reachable from the empty database through successful
ingestion writes and search-space deletions. -/
inductive ReachableContent (cfg : EmbeddingConfig) : ContentState → Prop
  | empty : ReachableContent cfg emptyContentState
  | ingest {st st' : ContentState} {d : Document} {cs : List Chunk} :
      ReachableContent cfg st → createDocumentWithChunks cfg st d cs = some st' →
      ReachableContent cfg st'
  | deleteSpace {st : ContentState} (sid : Nat) :
      ReachableContent cfg st → ReachableContent cfg (deleteSearchSpace st sid)
  | addSpace {st : ContentState} (s : SSpace) :
      ReachableContent cfg st →
      ReachableContent cfg { st with spaces := st.spaces ++ [s] }

/-- `select(Document).join(SearchSpace).filter(Document.id == document_id,
SearchSpace.user_id == user.id)` followed by `.scalars().first()`
(`documents_routes.py` lines 155-160, 193-198, 239-244). -/
def findUserDocument (docs : List Document) (spaces : List SSpace)
    (uid did : Nat) : Option Document :=
  docs.find? (fun d => decide (d.id = did ∧
    ∃ s ∈ spaces, s.id = d.search_space_id ∧ s.user_id = uid))

/-- A raised Python exception as a route handler sees it: either a FastAPI
`HTTPException` with its status, or any other exception. -/
inductive Exc
  | http (status : Nat)
  | other
deriving DecidableEq, Repr

/-- The body of the `try` block of `read_document` (`documents_routes.py`
lines 154-177): fetch the caller's document, raising `HTTPException(404)` when
it is absent. -/
def readDocumentBody (docs : List Document) (spaces : List SSpace)
    (uid did : Nat) : Except Exc Document :=
  match findUserDocument docs spaces uid did with
  | some d => .ok d
  | none => .error (.http 404)

/-- `read_document` (`documents_routes.py` lines 148-182): the handler's only
`except` clause is `except Exception`, which also catches the
`HTTPException(404)` raised inside the `try` block and rewraps every
exception as HTTP 500. -/
def read_document (docs : List Document) (spaces : List SSpace)
    (uid did : Nat) : Except Nat Document :=
  match readDocumentBody docs spaces uid did with
  | .ok d => .ok d
  | .error _ => .error 500

/-- `update_document` (`documents_routes.py` lines 184-229): fetch the
caller's document (404 when absent, re-raised by `except HTTPException:
raise`), apply the update body's set fields — abstracted as `f` since the
`DocumentUpdate` schema is not under `src/` — and commit. Returns the document
table and the response. -/
def update_document (docs : List Document) (spaces : List SSpace)
    (uid did : Nat) (f : Document → Document) :
    List Document × Except Nat Document :=
  match readDocumentBody docs spaces uid did with
  | .error (.http s) => (docs, .error s)
  | .error .other => (docs, .error 500)
  | .ok d =>
    (docs.map (fun d0 => if d0.id = did then f d0 else d0), .ok (f d))

/-- `delete_document` (`documents_routes.py` lines 231-262): fetch the
caller's document (404 when absent, re-raised by `except HTTPException:
raise`) and delete it; the `ondelete='CASCADE'` foreign key of `chunks`
(`app/db.py` line 103) deletes its chunks with it. Returns the document and
chunk tables and the response. -/
def delete_document (docs : List Document) (chunks : List Chunk)
    (spaces : List SSpace) (uid did : Nat) :
    (List Document × List Chunk) × Except Nat String :=
  match readDocumentBody docs spaces uid did with
  | .error (.http s) => ((docs, chunks), .error s)
  | .error .other => ((docs, chunks), .error 500)
  | .ok _ =>
    ((docs.filter (fun d => decide (d.id ≠ did)),
      chunks.filter (fun c => decide (c.document_id ≠ did))),
     .ok "Document deleted successfully")

/-- A task handed to `fastapi_background_tasks.add_task` by
`create_documents`. -/
inductive DocTask
  | extensionDoc (content : String) (search_space_id : Nat)
  | crawledUrl (url : String) (search_space_id : Nat)
deriving DecidableEq, Repr

/-- `create_documents`, the `POST /documents/` handler (`documents_routes.py`
lines 16-58): after the search-space ownership check (404 on failure),
dispatch one ingestion task per content item for `EXTENSION` and
`CRAWLED_URL` requests, and raise `HTTPException(400, "Invalid document
type")` — re-raised untouched by `except HTTPException: raise` — for every
other document type, scheduling nothing. -/
def create_documents (spaces : List SSpace) (uid : Nat) (dt : DocumentType)
    (content : List String) (ssid : Nat) :
    List DocTask × Except (Nat × String) String :=
  match findOwnedSpace spaces ssid uid with
  | none => ([], .error (404, "SearchSpace not found or not owned by user"))
  | some _ =>
    match dt with
    | .EXTENSION =>
      (content.map (fun c => .extensionDoc c ssid), .ok "Documents processed successfully")
    | .CRAWLED_URL =>
      (content.map (fun u => .crawledUrl u ssid), .ok "Documents processed successfully")
    | _ => ([], .error (400, "Invalid document type"))

/-! ## Helper lemmas -/

theorem isPrefixCh_iff (n : List Char) :
    ∀ hay : List Char, isPrefixCh n hay = true ↔ ∃ r, hay = n ++ r := by
  induction n with
  | nil => intro hay; simp [isPrefixCh]
  | cons a as ih =>
    intro hay
    cases hay with
    | nil =>
      simp [isPrefixCh]
    | cons b bs =>
      simp only [isPrefixCh, Bool.and_eq_true, beq_iff_eq, ih bs,
        List.cons_append, List.cons.injEq]
      constructor
      · rintro ⟨hab, r, hr⟩
        exact ⟨r, hab.symm, hr⟩
      · rintro ⟨r, hba, hr⟩
        exact ⟨hba.symm, r, hr⟩

theorem containsSub_iff (n : List Char) :
    ∀ hay : List Char, containsSub n hay = true ↔ ∃ l r, hay = l ++ (n ++ r) := by
  intro hay
  induction hay with
  | nil =>
    simp only [containsSub, isPrefixCh_iff]
    constructor
    · rintro ⟨r, hr⟩
      exact ⟨[], r, by simpa using hr⟩
    · rintro ⟨l, r, hr⟩
      cases l with
      | nil => exact ⟨r, by simpa using hr⟩
      | cons x xs => simp at hr
  | cons b bs ih =>
    simp only [containsSub, Bool.or_eq_true, isPrefixCh_iff, ih]
    constructor
    · rintro (⟨r, hr⟩ | ⟨l, r, hr⟩)
      · exact ⟨[], r, by simpa using hr⟩
      · exact ⟨b :: l, r, by simp [hr]⟩
    · rintro ⟨l, r, hr⟩
      cases l with
      | nil => exact Or.inl ⟨r, by simpa using hr⟩
      | cons x xs =>
        rw [List.cons_append] at hr
        injection hr with h1 h2
        exact Or.inr ⟨xs, r, h2⟩

theorem containsSubstring_iff (needle hay : String) :
    containsSubstring needle hay = true ↔
      ∃ l r, hay.data = l ++ (needle.data ++ r) := by
  exact containsSub_iff needle.data hay.data

theorem findConnector_cons_pos {a : Connector} {cid : Nat} (rest : List Connector)
    (ha : a.id = cid) : findConnector (a :: rest) cid = some a := by
  simp only [findConnector]
  exact List.find?_cons_of_pos rest (by simpa using ha)

theorem findConnector_cons_neg {a : Connector} {cid : Nat} (rest : List Connector)
    (ha : ¬a.id = cid) : findConnector (a :: rest) cid = findConnector rest cid := by
  simp only [findConnector]
  exact List.find?_cons_of_neg rest (by simpa using ha)

theorem findConnector_update (now : Timestamp) (cid : Nat) (c : Connector) :
    ∀ db : List Connector, findConnector db cid = some c →
      findConnector (update_connector_last_indexed now db cid) cid
        = some (setCheckpoint now c) := by
  intro db
  induction db with
  | nil => intro hc; simp [findConnector] at hc
  | cons a rest ih =>
    intro hc
    by_cases ha : a.id = cid
    · rw [findConnector_cons_pos rest ha] at hc
      cases hc
      rw [show update_connector_last_indexed now (c :: rest) cid
            = setCheckpoint now c :: rest from by
          simp [update_connector_last_indexed, ha]]
      exact findConnector_cons_pos rest (by simpa [setCheckpoint] using ha)
    · rw [findConnector_cons_neg rest ha] at hc
      rw [show update_connector_last_indexed now (a :: rest) cid
            = a :: update_connector_last_indexed now rest cid from by
          simp [update_connector_last_indexed, ha]]
      rw [findConnector_cons_neg _ ha]
      exact ih hc

theorem mem_replaceOwnedConnector {x : Connector} (cid uid : Nat) (c' : Connector) :
    ∀ db : List Connector, x ∈ replaceOwnedConnector db cid uid c' → x ∈ db ∨ x = c' := by
  intro db
  induction db with
  | nil => intro hx; simp [replaceOwnedConnector] at hx
  | cons a rest ih =>
    intro hx
    by_cases hP : a.id = cid ∧ a.user_id = uid
    · rw [show replaceOwnedConnector (a :: rest) cid uid c' = c' :: rest from by
        simp [replaceOwnedConnector, hP]] at hx
      rcases List.mem_cons.1 hx with h | h
      · exact Or.inr h
      · exact Or.inl (List.mem_cons_of_mem _ h)
    · rw [show replaceOwnedConnector (a :: rest) cid uid c'
          = a :: replaceOwnedConnector rest cid uid c' from by
        simp [replaceOwnedConnector, hP]] at hx
      rcases List.mem_cons.1 hx with h | h
      · exact Or.inl (h ▸ List.mem_cons_self a rest)
      · rcases ih h with h2 | h2
        · exact Or.inl (List.mem_cons_of_mem _ h2)
        · exact Or.inr h2

theorem uniqueUserType_replace (cid uid : Nat) (c' : Connector)
    (hcu : c'.user_id = uid) :
    ∀ db : List Connector, uniqueUserType db →
    List.Pairwise (fun a b => a.id ≠ b.id) db →
    (∀ x ∈ db, x.id ≠ cid →
      ¬(x.user_id = c'.user_id ∧ x.connector_type = c'.connector_type)) →
    uniqueUserType (replaceOwnedConnector db cid uid c') := by
  intro db
  induction db with
  | nil => intro _ _ _; simp [replaceOwnedConnector, uniqueUserType]
  | cons a rest ih =>
    intro hu hids hsafe
    rw [uniqueUserType, List.pairwise_cons] at hu
    rw [List.pairwise_cons] at hids
    by_cases hP : a.id = cid ∧ a.user_id = uid
    · rw [show replaceOwnedConnector (a :: rest) cid uid c' = c' :: rest from by
        simp [replaceOwnedConnector, hP]]
      rw [uniqueUserType, List.pairwise_cons]
      refine ⟨?_, hu.2⟩
      intro b hb hkey
      have hbid : b.id ≠ cid := fun hbc => hids.1 b hb (by rw [hP.1, hbc])
      exact hsafe b (List.mem_cons_of_mem _ hb) hbid ⟨hkey.1.symm, hkey.2.symm⟩
    · rw [show replaceOwnedConnector (a :: rest) cid uid c'
          = a :: replaceOwnedConnector rest cid uid c' from by
        simp [replaceOwnedConnector, hP]]
      rw [uniqueUserType, List.pairwise_cons]
      constructor
      · intro b hb hkey
        rcases mem_replaceOwnedConnector cid uid c' rest hb with hmem | rfl
        · exact hu.1 b hmem hkey
        · by_cases haid : a.id = cid
          · exact hP ⟨haid, by rw [hkey.1, hcu]⟩
          · exact hsafe a (List.mem_cons_self a rest) haid hkey
      · exact ih hu.2 hids.2 (fun x hx => hsafe x (List.mem_cons_of_mem _ hx))

/-! ## Claims -/

/-- C1: for every indexing run (Slack or Notion), the connector's
`last_indexed_at` checkpoint is updated — via `update_connector_last_indexed`,
which stamps the found connector with the current time — if and only if the
run reports at least one indexed document and its outcome message is either
absent or contains the substring `"Indexed"`; a run with zero documents, with
a message lacking `"Indexed"`, or that raises, leaves the connector table
unchanged (self-loop). -/
theorem checkpoint_advances_iff_indexed_and_success_or_warning
    (now : Timestamp) (db : List Connector) (cid : Nat) (c : Connector)
    (outcome : IndexOutcome)
    (hc : findConnector db cid = some c) :
    (shouldAdvanceCheckpoint outcome = true ↔
      ∃ n msg, outcome = .result n msg ∧ 1 ≤ n ∧
        (msg = none ∨ ∃ m l r, msg = some m ∧
          m.data = l ++ ("Indexed".data ++ r)))
  ∧ (shouldAdvanceCheckpoint outcome = true →
      run_slack_indexing now db cid outcome
          = update_connector_last_indexed now db cid
      ∧ run_notion_indexing now db cid outcome
          = update_connector_last_indexed now db cid
      ∧ findConnector (run_slack_indexing now db cid outcome) cid
          = some (setCheckpoint now c)
      ∧ findConnector (run_notion_indexing now db cid outcome) cid
          = some (setCheckpoint now c))
  ∧ (shouldAdvanceCheckpoint outcome = false →
      run_slack_indexing now db cid outcome = db
      ∧ run_notion_indexing now db cid outcome = db) := by
  refine ⟨?_, ?_, ?_⟩
  · cases outcome with
    | raised => simp [shouldAdvanceCheckpoint]
    | result n msg =>
      cases msg with
      | none =>
        constructor
        · intro h
          have hn : 0 < n := by simpa [shouldAdvanceCheckpoint] using h
          exact ⟨n, none, rfl, hn, Or.inl rfl⟩
        · rintro ⟨n', msg', heq, hge, -⟩
          cases heq
          simpa [shouldAdvanceCheckpoint] using hge
      | some m =>
        constructor
        · intro h
          have h2 : 0 < n ∧ containsSubstring "Indexed" m = true := by
            simpa [shouldAdvanceCheckpoint] using h
          obtain ⟨l, r, hm⟩ := (containsSubstring_iff _ _).1 h2.2
          exact ⟨n, some m, rfl, h2.1, Or.inr ⟨m, l, r, rfl, hm⟩⟩
        · rintro ⟨n', msg', heq, hge, hcase⟩
          cases heq
          rcases hcase with habs | ⟨m', l, r, hm', hdata⟩
          · exact absurd habs (by simp)
          · cases hm'
            have hcs : containsSubstring "Indexed" m = true :=
              (containsSubstring_iff _ _).2 ⟨l, r, hdata⟩
            simp [shouldAdvanceCheckpoint, hcs]
            omega
  · intro hadv
    rw [run_slack_indexing, run_notion_indexing, if_pos hadv]
    exact ⟨rfl, rfl, findConnector_update now cid c db hc,
      findConnector_update now cid c db hc⟩
  · intro hnadv
    rw [run_slack_indexing, run_notion_indexing, hnadv]
    simp

/-- C1 witness: a Slack run indexing 2 documents with no error message on a
one-connector table advances the checkpoint; the concrete hypotheses of the
theorem are discharged by evaluation. -/
theorem checkpoint_advances_witness :
    findConnector
        (run_slack_indexing ⟨6, 0⟩
          [⟨1, 7, "slack", .SLACK_CONNECTOR, true, none, ""⟩] 1
          (.result 2 none)) 1
      = some (setCheckpoint ⟨6, 0⟩ ⟨1, 7, "slack", .SLACK_CONNECTOR, true, none, ""⟩) :=
  ((checkpoint_advances_iff_indexed_and_success_or_warning ⟨6, 0⟩
      [⟨1, 7, "slack", .SLACK_CONNECTOR, true, none, ""⟩] 1
      ⟨1, 7, "slack", .SLACK_CONNECTOR, true, none, ""⟩
      (.result 2 none) (by decide)).2.1 (by decide)).2.2.1

/-- C2: the code contradicts its own comment ("If last indexed today, go back
1 day") at the failing input — a connector whose `last_indexed_at` falls on
the current calendar day (day 5). There `today - datetime.timedelta(days=1)`
raises `AttributeError` (`datetime` is the class the module imports from the
datetime library, and it has no `timedelta` attribute) instead of producing
yesterday's date; the null branch yields "365 days ago" and the earlier-day
branch yields the checkpoint's date, as the claim states. -/
theorem start_date_today_branch_raises :
    computeStartDate (some ⟨5, 3⟩) 5 = .error .attributeError
    ∧ computeStartDate none 5 = .ok .daysAgo365
    ∧ computeStartDate (some ⟨3, 0⟩) 5 = .ok (.onDay 3) := ⟨rfl, rfl, rfl⟩

/-- C3 counterexample: a Success run with 3 documents whose indexing began at
clock ⟨5, 0⟩ and whose checkpoint write executes at clock ⟨5, 1⟩ — the source
sets `last_indexed_at = datetime.now()` inside `update_connector_last_indexed`
after indexing finishes, and captures no run start time — leaves the
checkpoint at ⟨5, 1⟩, which is not the run's start time ⟨5, 0⟩. -/
theorem checkpoint_not_run_start_time :
    run_slack_indexing ⟨5, 1⟩
        [⟨1, 7, "slack", .SLACK_CONNECTOR, true, none, ""⟩] 1 (.result 3 none)
      = [⟨1, 7, "slack", .SLACK_CONNECTOR, true, some ⟨5, 1⟩, ""⟩]
    ∧ (⟨5, 1⟩ : Timestamp) ≠ ⟨5, 0⟩ := by decide

/-- C3 (amended): for every indexing run with at least one document indexed
and outcome Success (no error message), the connector's `last_indexed_at` is
advanced to the clock value `now` at which the checkpoint write
(`update_connector_last_indexed`) executes — the run's completion, not its
start. -/
theorem success_run_sets_checkpoint_to_write_time
    (now : Timestamp) (db : List Connector) (cid : Nat) (c : Connector)
    (n : Nat) (hn : 1 ≤ n) (hc : findConnector db cid = some c) :
    findConnector (run_slack_indexing now db cid (.result n none)) cid
      = some (setCheckpoint now c)
    ∧ findConnector (run_notion_indexing now db cid (.result n none)) cid
      = some (setCheckpoint now c) := by
  have hadv : shouldAdvanceCheckpoint (.result n none) = true := by
    simp [shouldAdvanceCheckpoint]; omega
  rw [run_slack_indexing, run_notion_indexing, if_pos hadv]
  exact ⟨findConnector_update now cid c db hc, findConnector_update now cid c db hc⟩

/-- C3 witness: the amended theorem applied to a concrete one-connector table
with a Success run of 3 documents whose checkpoint write executes at ⟨5, 1⟩. -/
theorem success_run_sets_checkpoint_witness :
    findConnector
        (run_slack_indexing ⟨5, 1⟩
          [⟨1, 7, "slack", .SLACK_CONNECTOR, true, none, ""⟩] 1
          (.result 3 none)) 1
      = some (setCheckpoint ⟨5, 1⟩ ⟨1, 7, "slack", .SLACK_CONNECTOR, true, none, ""⟩) :=
  (success_run_sets_checkpoint_to_write_time ⟨5, 1⟩
      [⟨1, 7, "slack", .SLACK_CONNECTOR, true, none, ""⟩] 1
      ⟨1, 7, "slack", .SLACK_CONNECTOR, true, none, ""⟩ 3
      (by decide) (by decide)).1

/-- C4: the per-(user, connector_type) uniqueness invariant is preserved by
every write operation — assuming only that the table satisfies it and has
distinct primary keys, and that the update targets a connector owned by the
caller: the invariant holds after `create_search_source_connector` and after
`update_search_source_connector`; creating a connector whose type the same
owner already has returns HTTP 409 with the table unchanged (the existing
connector is unaffected), and updating a connector to a type the same owner
already holds on a different connector likewise returns HTTP 409 with no
state change. -/
theorem connector_user_type_uniqueness_preserved
    (db : List Connector) (uid cid freshId : Nat)
    (conn upd : SearchSourceConnectorCreate) (c0 : Connector)
    (hu : uniqueUserType db)
    (hids : List.Pairwise (fun a b => a.id ≠ b.id) db)
    (hown : findOwnedConnector db cid uid = some c0) :
    uniqueUserType (create_search_source_connector db uid conn freshId).1
  ∧ uniqueUserType (update_search_source_connector db uid cid upd).1
  ∧ ((∃ c ∈ db, c.user_id = uid ∧ c.connector_type = conn.connector_type) →
      create_search_source_connector db uid conn freshId = (db, .error 409))
  ∧ ((∃ c ∈ db, c.user_id = uid ∧ c.connector_type = upd.connector_type ∧ c.id ≠ cid) →
      update_search_source_connector db uid cid upd = (db, .error 409)) := by
  have hc0p : c0.id = cid ∧ c0.user_id = uid := by
    have := List.find?_some hown
    simpa using this
  have hc0mem : c0 ∈ db := List.mem_of_find?_eq_some hown
  have hsymm : Symmetric (fun a b : Connector =>
      ¬(a.user_id = b.user_id ∧ a.connector_type = b.connector_type)) :=
    fun a b hab ⟨h1, h2⟩ => hab ⟨h1.symm, h2.symm⟩
  refine ⟨?_, ?_, ?_, ?_⟩
  · rcases hfind : db.find? (fun c =>
        decide (c.user_id = uid ∧ c.connector_type = conn.connector_type)) with _ | c
    · have hnone : ∀ x ∈ db, ¬(x.user_id = uid ∧ x.connector_type = conn.connector_type) := by
        intro x hx hmatch
        have := List.find?_eq_none.1 hfind x hx
        simp [hmatch.1, hmatch.2] at this
      simp only [create_search_source_connector, hfind]
      rw [uniqueUserType, List.pairwise_append]
      refine ⟨hu, by simp, ?_⟩
      intro a ha b hb
      rcases List.mem_singleton.1 hb with rfl
      intro hkey
      exact hnone a ha ⟨hkey.1, hkey.2⟩
    · simp only [create_search_source_connector, hfind]
      exact hu
  · simp only [update_search_source_connector, hown]
    by_cases hcond : upd.connector_type ≠ c0.connector_type ∧
        ((db.find? fun c2 => decide (c2.user_id = uid ∧
          c2.connector_type = upd.connector_type ∧ c2.id ≠ cid)).isSome = true)
    · rw [if_pos hcond]
      exact hu
    · rw [if_neg hcond]
      refine uniqueUserType_replace cid uid _ (by simp [applyConnectorUpdate, hc0p.2])
        db hu hids ?_
      intro x hx hxid hxkey
      simp only [applyConnectorUpdate] at hxkey
      by_cases hty : upd.connector_type = c0.connector_type
      · have hxne : x ≠ c0 := fun hxe => hxid (hxe ▸ hc0p.1)
        exact hu.forall hsymm hx hc0mem hxne
          ⟨by rw [hxkey.1, hc0p.2], by rw [hxkey.2, hty]⟩
      · have hfnone : ¬((db.find? fun c2 => decide (c2.user_id = uid ∧
            c2.connector_type = upd.connector_type ∧ c2.id ≠ cid)).isSome = true) :=
          fun hsome => hcond ⟨hty, hsome⟩
        exact hfnone (List.find?_isSome.2
          ⟨x, hx, by simp [hxkey.1.trans hc0p.2, hxkey.2, hxid]⟩)
  · rintro ⟨c, hcmem, hcu', hct⟩
    rcases hfind : db.find? (fun c =>
        decide (c.user_id = uid ∧ c.connector_type = conn.connector_type)) with _ | cf
    · exact absurd (by simpa using List.find?_eq_none.1 hfind c hcmem) (by simp [hcu', hct])
    · simp only [create_search_source_connector, hfind]
  · rintro ⟨c, hcmem, hcu', hct, hcid⟩
    have hty : upd.connector_type ≠ c0.connector_type := by
      intro hte
      have hcne : c ≠ c0 := fun hce => hcid (hce ▸ hc0p.1)
      exact hu.forall hsymm hcmem hc0mem hcne
        ⟨hcu'.trans hc0p.2.symm, hct.trans hte⟩
    have hsome : (db.find? fun c2 => decide (c2.user_id = uid ∧
        c2.connector_type = upd.connector_type ∧ c2.id ≠ cid)).isSome = true :=
      List.find?_isSome.2 ⟨c, hcmem, by simp [hcu', hct, hcid]⟩
    simp only [update_search_source_connector, hown, if_pos (And.intro hty hsome)]

/-- C4 witness: with a table holding one Slack connector of user 7, creating a
second Slack connector for user 7 is rejected with 409 and the table is
unchanged, and updating connector 1 keeps the invariant. -/
theorem connector_uniqueness_witness :
    create_search_source_connector
        [⟨1, 7, "slack", .SLACK_CONNECTOR, true, none, ""⟩] 7
        ⟨"slack2", .SLACK_CONNECTOR, true, ""⟩ 2
      = ([⟨1, 7, "slack", .SLACK_CONNECTOR, true, none, ""⟩], .error 409) :=
  (connector_user_type_uniqueness_preserved
      [⟨1, 7, "slack", .SLACK_CONNECTOR, true, none, ""⟩] 7 1 2
      ⟨"slack2", .SLACK_CONNECTOR, true, ""⟩
      ⟨"notion", .NOTION_CONNECTOR, true, ""⟩
      ⟨1, 7, "slack", .SLACK_CONNECTOR, true, none, ""⟩
      (by simp [uniqueUserType]) (by simp) (by decide)).2.2.1
    ⟨⟨1, 7, "slack", .SLACK_CONNECTOR, true, none, ""⟩, by simp, rfl, rfl⟩

/-- C5: deleting a SearchSpace deletes all of its Documents, Podcasts and
Chats, and (transitively through each Document) all of its Chunks: after
`deleteSearchSpace` no Document, Podcast or Chat of the space remains, and no
remaining Chunk has a parent Document that belonged to the space. -/
theorem delete_search_space_cascades (st : ContentState) (sid : Nat) :
    (∀ d ∈ (deleteSearchSpace st sid).documents, d.search_space_id ≠ sid)
  ∧ (∀ p ∈ (deleteSearchSpace st sid).podcasts, p.search_space_id ≠ sid)
  ∧ (∀ ch ∈ (deleteSearchSpace st sid).chats, ch.search_space_id ≠ sid)
  ∧ (∀ c ∈ (deleteSearchSpace st sid).chunks, ∀ d ∈ st.documents,
      d.id = c.document_id → d.search_space_id ≠ sid) := by
  refine ⟨?_, ?_, ?_, ?_⟩
  · intro d hd
    have := (List.mem_filter.1 hd).2
    simpa using this
  · intro p hp
    have := (List.mem_filter.1 hp).2
    simpa using this
  · intro ch hch
    have := (List.mem_filter.1 hch).2
    simpa using this
  · intro c hc d hd hid hsid
    have hfilter := (List.mem_filter.1 hc).2
    simp only [Bool.not_eq_eq_eq_not, Bool.not_true, List.any_eq_false,
      decide_eq_true_iff] at hfilter
    exact hfilter d (List.mem_filter.2 ⟨hd, by simpa using hsid⟩) hid

/-- C6: in every content state reachable through ingestion writes — which the
pgvector `Vector(cfg.dimension)` columns guard — every stored Document
embedding and every stored Chunk embedding has length equal to the single
process-wide configured dimension; in particular every Chunk embedding has
the same length as every Document embedding. -/
theorem stored_embedding_dimensions_match_config
    (cfg : EmbeddingConfig) (st : ContentState)
    (hr : ReachableContent cfg st) :
    (∀ d ∈ st.documents, ∀ v, d.embedding = some v → v.length = cfg.dimension)
  ∧ (∀ c ∈ st.chunks, ∀ v, c.embedding = some v → v.length = cfg.dimension)
  ∧ (∀ d ∈ st.documents, ∀ c ∈ st.chunks, ∀ v w,
      d.embedding = some v → c.embedding = some w → v.length = w.length) := by
  have main : (∀ d ∈ st.documents, ∀ v, d.embedding = some v → v.length = cfg.dimension)
      ∧ (∀ c ∈ st.chunks, ∀ v, c.embedding = some v → v.length = cfg.dimension) := by
    induction hr with
    | empty => simp [emptyContentState]
    | @ingest st0 st1 d cs hr0 hstep ih =>
      rw [createDocumentWithChunks] at hstep
      by_cases hcond : (vectorColumnAccepts cfg d.embedding &&
          cs.all fun c => vectorColumnAccepts cfg c.embedding) = true
      · rw [if_pos hcond] at hstep
        obtain ⟨hd, hcs⟩ := (Bool.and_eq_true _ _) ▸ hcond
        cases hstep
        constructor
        · intro d0 hd0 v hv
          rcases List.mem_append.1 hd0 with h | h
          · exact ih.1 d0 h v hv
          · rcases List.mem_singleton.1 h with rfl
            rw [hv] at hd
            simpa [vectorColumnAccepts] using hd
        · intro c0 hc0 v hv
          rcases List.mem_append.1 hc0 with h | h
          · exact ih.2 c0 h v hv
          · have := List.all_eq_true.1 hcs c0 h
            rw [hv] at this
            simpa [vectorColumnAccepts] using this
      · rw [if_neg hcond] at hstep
        exact absurd hstep (by simp)
    | deleteSpace sid hr0 ih =>
      constructor
      · intro d hd v hv
        simp only [deleteSearchSpace, List.mem_filter] at hd
        exact ih.1 d hd.1 v hv
      · intro c hc v hv
        simp only [deleteSearchSpace, List.mem_filter] at hc
        exact ih.2 c hc.1 v hv
    | addSpace s hr0 ih => simpa using ih
  exact ⟨main.1, main.2, fun d hd c hc v w hv hw => by
    rw [main.1 d hd v hv, main.2 c hc w hw]⟩

/-- C6 witness: the state obtained by one ingestion write of a document with
embedding `[1, 2]` and one chunk with embedding `[3, 4]` under configured
dimension 2; both stored vectors have the configured length. -/
theorem stored_embedding_dimensions_witness :
    ([1, 2] : List Int).length = 2 ∧ ([3, 4] : List Int).length = 2 :=
  have h := stored_embedding_dimensions_match_config ⟨2⟩
    ⟨[], [⟨1, 1, "t", .FILE, "hello", some [1, 2]⟩], [⟨1, 1, "he", some [3, 4]⟩], [], []⟩
    (@ReachableContent.ingest ⟨2⟩ emptyContentState
      ⟨[], [⟨1, 1, "t", .FILE, "hello", some [1, 2]⟩], [⟨1, 1, "he", some [3, 4]⟩], [], []⟩
      ⟨1, 1, "t", .FILE, "hello", some [1, 2]⟩ [⟨1, 1, "he", some [3, 4]⟩]
      ReachableContent.empty rfl)
  ⟨h.1 ⟨1, 1, "t", .FILE, "hello", some [1, 2]⟩ (by simp) [1, 2] rfl,
   h.2.1 ⟨1, 1, "he", some [3, 4]⟩ (by simp) [3, 4] rfl⟩

/-- C7 counterexample: a Slack connector last indexed on the current day
(day 5), owned by the caller together with the search space, with background
tasks available: the start-date computation raises `AttributeError`, the
generic handler rewraps it as HTTP 500, and no background task is dispatched —
not the success response with window bounds that the claim promises for every
such call. -/
theorem trigger_today_checkpoint_no_dispatch :
    index_connector_content
        [⟨1, 7, "slack", .SLACK_CONNECTOR, true, some ⟨5, 0⟩, ""⟩]
        [⟨2, 7, "space"⟩] 7 1 2 5 true
      = ([⟨1, 7, "slack", .SLACK_CONNECTOR, true, some ⟨5, 0⟩, ""⟩],
         [], .error 500) := rfl

/-- C7 (amended): for every indexing trigger call on a Slack or Notion
connector owned by the caller, with background tasks available, *and whose
window-start computation succeeds* (`last_indexed_at` null or on an earlier
calendar day — otherwise the call fails with HTTP 500, see the
counterexample), the call dispatches the indexing task and returns, without
awaiting the run (the connector table is returned unchanged), a success
response whose `indexing_from` is the computed window start and whose
`indexing_to` is the current date. -/
theorem trigger_dispatches_with_window_bounds
    (db : List Connector) (spaces : List SSpace) (uid cid ssid today : Nat)
    (conn : Connector) (sp : SSpace) (sd : StartDate)
    (hconn : findOwnedConnector db cid uid = some conn)
    (hsp : findOwnedSpace spaces ssid uid = some sp)
    (hsd : computeStartDate conn.last_indexed_at today = .ok sd) :
    (conn.connector_type = .SLACK_CONNECTOR →
      index_connector_content db spaces uid cid ssid today true
        = (db, [.slackIndexing cid ssid],
            .ok (.started .SLACK_CONNECTOR sp.name sd today)))
  ∧ (conn.connector_type = .NOTION_CONNECTOR →
      index_connector_content db spaces uid cid ssid today true
        = (db, [.notionIndexing cid ssid],
            .ok (.started .NOTION_CONNECTOR sp.name sd today))) := by
  constructor <;> intro ht <;>
    simp [index_connector_content, hconn, hsp, ht, hsd]

/-- C7 witness: a never-indexed Slack connector dispatches a Slack indexing
task and returns the window `["365 days ago", day 5]`. -/
theorem trigger_dispatches_witness :
    index_connector_content
        [⟨1, 7, "slack", .SLACK_CONNECTOR, true, none, ""⟩]
        [⟨2, 7, "space"⟩] 7 1 2 5 true
      = ([⟨1, 7, "slack", .SLACK_CONNECTOR, true, none, ""⟩],
         [.slackIndexing 1 2],
         .ok (.started .SLACK_CONNECTOR "space" .daysAgo365 5)) :=
  (trigger_dispatches_with_window_bounds
      [⟨1, 7, "slack", .SLACK_CONNECTOR, true, none, ""⟩]
      [⟨2, 7, "space"⟩] 7 1 2 5
      ⟨1, 7, "slack", .SLACK_CONNECTOR, true, none, ""⟩
      ⟨2, 7, "space"⟩ .daysAgo365 (by decide) (by decide) rfl).1 rfl

/-- C8: for every connector owned by the caller whose type is neither
`SLACK_CONNECTOR` nor `NOTION_CONNECTOR` (i.e. `SERPER_API`, `TAVILY_API` or
`GITHUB_CONNECTOR`), the indexing trigger fails with HTTP 400, dispatches no
background task, and returns the connector table unchanged. -/
theorem trigger_unsupported_type_rejected_400
    (db : List Connector) (spaces : List SSpace)
    (uid cid ssid today : Nat) (hasBackgroundTasks : Bool)
    (conn : Connector) (sp : SSpace)
    (hconn : findOwnedConnector db cid uid = some conn)
    (hsp : findOwnedSpace spaces ssid uid = some sp)
    (ht : conn.connector_type = .SERPER_API ∨ conn.connector_type = .TAVILY_API ∨
          conn.connector_type = .GITHUB_CONNECTOR) :
    index_connector_content db spaces uid cid ssid today hasBackgroundTasks
      = (db, [], .error 400) := by
  rcases ht with ht | ht | ht <;>
    simp [index_connector_content, hconn, hsp, ht]

/-- C8 witness: a GitHub connector owned by the caller is rejected with 400
and nothing is dispatched. -/
theorem trigger_unsupported_type_witness :
    index_connector_content
        [⟨1, 7, "gh", .GITHUB_CONNECTOR, false, none, ""⟩]
        [⟨2, 7, "space"⟩] 7 1 2 5 true
      = ([⟨1, 7, "gh", .GITHUB_CONNECTOR, false, none, ""⟩], [], .error 400) :=
  trigger_unsupported_type_rejected_400
    [⟨1, 7, "gh", .GITHUB_CONNECTOR, false, none, ""⟩]
    [⟨2, 7, "space"⟩] 7 1 2 5 true
    ⟨1, 7, "gh", .GITHUB_CONNECTOR, false, none, ""⟩
    ⟨2, 7, "space"⟩ (by decide) (by decide) (Or.inr (Or.inr rfl))

/-- C9: for every `POST /documents/` request on a search space owned by the
caller whose `document_type` is neither `EXTENSION` nor `CRAWLED_URL` (e.g.
`FILE`, `SLACK_CONNECTOR`, `NOTION_CONNECTOR`, `YOUTUBE_VIDEO`,
`GITHUB_CONNECTOR`), the endpoint fails with HTTP 400 "Invalid document type"
and schedules no ingestion task. -/
theorem create_documents_invalid_type_rejected_400
    (spaces : List SSpace) (uid ssid : Nat) (sp : SSpace)
    (dt : DocumentType) (content : List String)
    (hsp : findOwnedSpace spaces ssid uid = some sp)
    (hdt : dt ≠ .EXTENSION ∧ dt ≠ .CRAWLED_URL) :
    create_documents spaces uid dt content ssid
      = ([], .error (400, "Invalid document type")) := by
  cases dt <;> simp_all [create_documents]

/-- C9 witness: a `FILE`-typed request on an owned search space is rejected
with 400 "Invalid document type" and schedules nothing. -/
theorem create_documents_invalid_type_witness :
    create_documents [⟨2, 7, "space"⟩] 7 .FILE ["x"] 2
      = ([], .error (400, "Invalid document type")) :=
  create_documents_invalid_type_rejected_400 [⟨2, 7, "space"⟩] 7 2
    ⟨2, 7, "space"⟩ .FILE ["x"] (by decide) (by decide)

/-- C10: for every document id that does not exist or is not owned by the
caller, `GET /documents/{id}` yields HTTP 500 — its internally raised 404 is
caught by the handler's only `except` clause, the generic `except Exception`,
and rewrapped — whereas the PUT and DELETE endpoints, whose
`except HTTPException: raise` clause re-raises it, yield HTTP 404 with no
state change. -/
theorem missing_document_get_500_put_delete_404
    (docs : List Document) (chunks : List Chunk) (spaces : List SSpace)
    (uid did : Nat) (f : Document → Document)
    (hmiss : findUserDocument docs spaces uid did = none) :
    read_document docs spaces uid did = .error 500
  ∧ update_document docs spaces uid did f = (docs, .error 404)
  ∧ delete_document docs chunks spaces uid did = ((docs, chunks), .error 404) := by
  refine ⟨?_, ?_, ?_⟩ <;>
    simp [read_document, update_document, delete_document, readDocumentBody, hmiss]

/-- C10 witness: looking up document 3 in an empty table yields 500 from GET
and 404 from PUT and DELETE. -/
theorem missing_document_witness :
    read_document [] [] 7 3 = .error 500
  ∧ update_document [] [] 7 3 id = ([], .error 404)
  ∧ delete_document [] [] [] 7 3 = (([], []), .error 404) :=
  missing_document_get_500_put_delete_404 [] [] [] 7 3 id rfl

end SurfSense
